import Mathlib

/-!
Verification of `entrypoint_github_actions_audit.py` (42Crunch API security
audit GitHub action, freemium preview).  The Python source is shallowly
embedded: pure helpers become Lean functions; the file system, the JSON
parser, the subprocess layer and the network are modelled as explicit
oracles passed in as arguments; `sys.exit` / uncaught Python exceptions
become an explicit `Outcome` value.
-/

namespace Entrypoint

/-- Python exception kinds relevant to the script. -/
inductive PyErr where
  | keyError
  | indexError
  | typeError
  | fileNotFoundError
  | jsonDecodeError
  | attributeError
deriving DecidableEq, Repr

/-- A parsed JSON document (the result of `json.load`). -/
inductive Json where
  | null
  | bool (b : Bool)
  | num (n : Int)
  | str (s : String)
  | arr (xs : List Json)
  | obj (fields : List (String × Json))

/-- Python subscripting `j[k]` with a string key: succeeds on a dict with the
key present, raises `KeyError` on a dict without it, `TypeError` otherwise. -/
def getKey (j : Json) (k : String) : Except PyErr Json :=
  match j with
  | .obj fields =>
    match fields.lookup k with
    | some v => .ok v
    | none => .error .keyError
  | _ => .error .typeError

/-- Python subscripting `j[i]` with a non-negative integer index: list indexing
(`IndexError` out of range), string indexing (a one-character string), a dict
with string keys raises `KeyError` for an integer key, `TypeError` otherwise. -/
def getIdx (j : Json) (i : Nat) : Except PyErr Json :=
  match j with
  | .arr xs =>
    match xs.get? i with
    | some v => .ok v
    | none => .error .indexError
  | .obj _ => .error .keyError
  | .str s =>
    match s.data.get? i with
    | some c => .ok (.str ⟨[c]⟩)
    | none => .error .indexError
  | _ => .error .typeError

/-- Python `len(j)`: length of a list, string or dict, `TypeError` otherwise. -/
def pyLen (j : Json) : Except PyErr Int :=
  match j with
  | .arr xs => .ok xs.length
  | .str s => .ok s.data.length
  | .obj fields => .ok fields.length
  | _ => .error .typeError

/-- What the gate evaluator finds at the SARIF path: `none` models a missing
file (`open` raises `FileNotFoundError`), `some (.error ())` a file whose
contents `json.load` rejects, `some (.ok j)` a file parsing to `j`. -/
abbrev SarifFile := Option (Except Unit Json)

/-- `is_security_issues_found`: reads and parses the SARIF report, computes
`len(data["runs"][0]["results"])`, catching only `KeyError` and `IndexError`
(which yield `(False, -1)`); any other exception propagates. -/
def is_security_issues_found (sarif_report : SarifFile) : Except PyErr (Bool × Int) :=
  match sarif_report with
  | none => .error .fileNotFoundError
  | some (.error _) => .error .jsonDecodeError
  | some (.ok data) =>
    let body : Except PyErr Int :=
      match getKey data "runs" with
      | .error e => .error e
      | .ok runs =>
        match getIdx runs 0 with
        | .error e => .error e
        | .ok first =>
          match getKey first "results" with
          | .error e => .error e
          | .ok results => pyLen results
    match body with
    | .ok issues_found =>
      if issues_found > 0 then .ok (true, issues_found) else .ok (false, -1)
    | .error .keyError => .ok (false, -1)
    | .error .indexError => .ok (false, -1)
    | .error e => .error e

/-- The running configuration dataclass.  Python `None`-able strings become
`Option String`. -/
structure RunningConfiguration where
  enforce : Bool := false
  log_level : String := "INFO"
  data_enrich : Bool := false
  upload_to_code_scanning : Bool := false
  sarif_report : Option String := none
  export_as_pdf : Option String := none
  github_token : Option String := none
  github_repository : Option String := none
  github_organization : Option String := none
  github_repository_owner : Option String := none
  github_ref : Option String := none
  github_sha : Option String := none
deriving DecidableEq, Repr

/-- Python `str.lower()` (ASCII case folding, which is all the script
compares). -/
def pyLower (s : String) : String :=
  ⟨s.data.map Char.toLower⟩

/-- Local helper `_to_bool` of `get_running_configuration`. -/
def _to_bool (value : Option String) : Bool :=
  match value with
  | none => false
  | some v => pyLower v == "true"

/-- Python `str.strip()`: remove leading and trailing whitespace. -/
def pyStrip (s : String) : String :=
  ⟨((s.data.dropWhile Char.isWhitespace).reverse.dropWhile
      Char.isWhitespace).reverse⟩

/-- Local helper `_none_or_empty` of `get_running_configuration`. -/
def _none_or_empty (value : Option String) : Option String :=
  match value with
  | none => none
  | some v => if pyStrip v == "" then none else some v

/-- The process environment: variable name to optional value. -/
abbrev Environ := String → Option String

/-- `os.getenv(name, default)`. -/
def getenv (env : Environ) (name dflt : String) : String :=
  (env name).getD dflt

/-- `get_running_configuration`: reads the fixed set of environment
variables into a `RunningConfiguration`. -/
def get_running_configuration (env : Environ) : RunningConfiguration :=
  let enforce := _to_bool (some (getenv env "INPUT_ENFORCE-SQG" "false"))
  let data_enrich := _to_bool (some (getenv env "INPUT_DATA-ENRICH" "false"))
  let upload_to_code_scanning :=
    _to_bool (some (getenv env "INPUT_UPLOAD-TO-CODE-SCANNING" "false"))
  let log_level0 := getenv env "INPUT_LOG-LEVEL" "info"
  let log_level :=
    if pyLower log_level0 ∈ ["fail", "error", "warn", "info", "debug"] then
      pyLower log_level0
    else "info"
  { log_level := pyLower log_level
    data_enrich := data_enrich
    enforce := enforce
    sarif_report := _none_or_empty (env "INPUT_SARIF-REPORT")
    export_as_pdf := _none_or_empty (env "INPUT_EXPORT-AS-PDF")
    upload_to_code_scanning := upload_to_code_scanning
    github_token := env "INPUT_TOKEN"
    github_repository := env "GITHUB_REPOSITORY"
    github_organization := env "GITHUB_REPOSITORY_OWNER"
    github_repository_owner := env "GITHUB_REPOSITORY_OWNER"
    github_ref := env "GITHUB_REF"
    github_sha := env "GITHUB_SHA" }

/-- Python `str.split(c)` for a one-character separator: splits at every
occurrence, keeping empty pieces (`"".split("/") == [""]`). -/
def splitChar (c : Char) : List Char → List (List Char)
  | [] => [[]]
  | x :: xs =>
    if x = c then [] :: splitChar c xs
    else
      match splitChar c xs with
      | g :: gs => (x :: g) :: gs
      | [] => [[x]]

/-- Python `str.replace(pat, repl)` on character lists, fuelled to make the
recursion structural: replaces the leftmost occurrences of a non-empty `pat`,
scanning left to right, without overlap.  A fuel of at least the list's
length is enough, since every step consumes at least one character. -/
def replaceAllAux (pat repl : List Char) : Nat → List Char → List Char
  | _, [] => []
  | 0, l => l
  | fuel + 1, c :: rest =>
    if pat ≠ [] ∧ pat <+: (c :: rest) then
      repl ++ replaceAllAux pat repl fuel (List.drop pat.length (c :: rest))
    else
      c :: replaceAllAux pat repl fuel rest

/-- Python `str.replace(pat, repl)` on character lists, for a non-empty
pattern.  (The empty pattern, never used by the script, is a no-op here.) -/
def replaceAll (pat repl l : List Char) : List Char :=
  replaceAllAux pat repl l.length l

/-- Python `s.replace(pat, repl)` on strings. -/
def pyReplace (s pat repl : String) : String :=
  ⟨replaceAll pat.data repl.data s.data⟩

/-- The root part of Python `os.path.splitext(p)` for a bare file name: the
text before the last dot, unless every character before that dot is itself a
dot (so `.bashrc` keeps its name). -/
def splitextRoot (p : String) : String :=
  let cs := p.data
  match ((List.range cs.length).filter fun i => cs.getD i ' ' = '.').getLast? with
  | none => p
  | some sep => if (cs.take sep).any (fun c => c ≠ '.') then ⟨cs.take sep⟩ else p

/-- `"audit-report" in report` (Python substring test). -/
def hasMarker (report : String) : Bool :=
  decide ("audit-report".data <:+: report.data)

/-- Python `"\n".join(parts)`. -/
def strJoin (sep : String) : List String → String
  | [] => ""
  | [x] => x
  | x :: xs => x ++ sep ++ strJoin sep xs

/-- What `subprocess.run` reports back for one invocation. -/
structure ProcResult where
  returncode : Int
  stdout : String
  stderr : String

/-- The message of the `ExecutionError` raised by `execute` on a non-zero
exit code: the exit-code line, then the stdout and stderr lines when those
captures are non-empty, joined with newlines. -/
def failureMessage (returncode : Int) (stdout stderr : String) : String :=
  let message := ["Command failed with exit code " ++ toString returncode]
  let message := if stdout ≠ "" then message ++ ["stdout: " ++ stdout] else message
  let message := if stderr ≠ "" then message ++ ["stderr: " ++ stderr] else message
  strJoin "\n" message

/-- `execute`'s command argument: a plain string (split naively on spaces) or
an argument list. -/
inductive Command where
  | str (s : String)
  | args (l : List String)

/-- The argument vector handed to `subprocess.run`. -/
def cmdArgs : Command → List String
  | .str s => (splitChar ' ' s.data).map fun cs => ⟨cs⟩
  | .args l => l

/-- `execute`: runs the command through the subprocess oracle `run`; on a
non-zero exit code raises `ExecutionError` with `failureMessage`, otherwise
returns the decoded captures when `capture_output` is set. -/
def execute (run : List String → ProcResult) (command : Command)
    (capture_output : Bool) : Except String (Option (String × String)) :=
  let result := run (cmdArgs command)
  if result.returncode ≠ 0 then
    .error (failureMessage result.returncode result.stdout result.stderr)
  else if capture_output then
    .ok (some (result.stdout, result.stderr))
  else
    .ok none

/-- How a run of the whole process (or of one of its functions) ends:
normally, via `exit`/`sys.exit`, or with an uncaught Python exception. -/
inductive Outcome where
  | ok
  | exit (code : Int)
  | uncaught (e : PyErr)
deriving DecidableEq, Repr

/-- Python falsiness of an optional string (`not s`): `None` or `""`. -/
def pyFalsy (v : Option String) : Bool :=
  match v with
  | none => true
  | some s => s == ""

/-- `upload_sarif`: checks the token, reads the SARIF file, validates the
repository identifier, then POSTs.  The file system and the network are the
oracles `fileReadable` and `httpOk`; `github_sha` and `ref` only populate the
payload.  Returns whether the network request was attempted, and the outcome
(`.exit 1` on the fatal paths, `.uncaught .typeError` when the `"/" in repo`
test is applied to `None`). -/
def upload_sarif (github_token github_repository github_sha ref : Option String)
    (sarif_file_path : String) (fileReadable : String → Bool)
    (httpOk : String → Bool) : Bool × Outcome :=
  if pyFalsy github_token then (false, .exit 1)
  else if fileReadable sarif_file_path then
    match github_repository with
    | none => (false, .uncaught .typeError)
    | some repo =>
      if repo.data.contains '/' then
        let _payload := (github_sha, ref)
        if httpOk sarif_file_path then (true, .ok) else (true, .exit 1)
      else (false, .exit 1)
  else (false, .exit 1)

/-- The OpenAPI file name derived from a report name:
`report.replace(".audit-report.json", "")`. -/
def openapi_file_of (report : String) : String :=
  pyReplace report ".audit-report.json" ""

/-- The SARIF file name derived from a report name:
`os.path.splitext(os.path.basename(report_path))[0] + ".sarif"` (the basename
of `os.path.join(output_directory, report)` is `report` itself, since
directory entries contain no separator). -/
def sarif_file_of (report : String) : String :=
  splitextRoot report ++ ".sarif"

/-- Observable external actions of `discovery_run`. -/
inductive Event where
  | execAudit
  | convertAttempt (report : String)
  | networkUpload (sarif : String)
  | gateCheck (sarif : String)
  | execMerge (files : List String)
deriving DecidableEq, Repr

/-- The oracles `discovery_run` interacts with: the audit subprocess exit,
the directory listing, per-report converter exits, the uploader's file system
and network, the gate's view of each SARIF file, and the merge exit. -/
structure DiscoveryEnv where
  auditOk : Bool
  reports : List String
  convertOk : String → Bool
  uploadFileReadable : String → Bool
  uploadHttpOk : String → Bool
  gateFile : String → SarifFile
  mergeOk : Bool

/-- The upload step for one converted SARIF file (lines guarded by
`running_config.upload_to_code_scanning`): events produced, and `some o` when
`upload_sarif` terminates the process. -/
def uploadStep (cfg : RunningConfiguration) (env : DiscoveryEnv) (sarif : String) :
    List Event × Option Outcome :=
  if cfg.upload_to_code_scanning then
    let res := upload_sarif cfg.github_token cfg.github_repository cfg.github_sha
      cfg.github_ref sarif env.uploadFileReadable env.uploadHttpOk
    (if res.1 then [Event.networkUpload sarif] else [],
     match res.2 with
     | .ok => none
     | o => some o)
  else ([], none)

/-- The gate step for one converted SARIF file (guarded by
`running_config.enforce`): `sys.exit(1)` when issues are found, an uncaught
exception when `is_security_issues_found` raises one. -/
def gateStep (cfg : RunningConfiguration) (env : DiscoveryEnv) (sarif : String) :
    List Event × Option Outcome :=
  if cfg.enforce then
    ([Event.gateCheck sarif],
     match is_security_issues_found (env.gateFile sarif) with
     | .error e => some (.uncaught e)
     | .ok (true, _) => some (.exit 1)
     | .ok (false, _) => none)
  else ([], none)

/-- One iteration of the conversion loop of `discovery_run` over a directory
entry: skip non-report files; attempt the conversion; on converter failure
log and `continue`; on success record the SARIF file, then upload and enforce.
Returns (events, SARIF files appended to `sarif_reports`, abort outcome). -/
def reportEvents (cfg : RunningConfiguration) (env : DiscoveryEnv) (report : String) :
    List Event × List String × Option Outcome :=
  if hasMarker report then
    if env.convertOk report then
      let sarif := sarif_file_of report
      let u := uploadStep cfg env sarif
      match u.2 with
      | some o => (Event.convertAttempt report :: u.1, [sarif], some o)
      | none =>
        let g := gateStep cfg env sarif
        (Event.convertAttempt report :: (u.1 ++ g.1), [sarif], g.2)
    else
      ([Event.convertAttempt report], [], none)
  else
    ([], [], none)

/-- The conversion loop of `discovery_run`, stopping at the first iteration
that terminates the process. -/
def runLoop (cfg : RunningConfiguration) (env : DiscoveryEnv) :
    List String → List Event × List String × Option Outcome
  | [] => ([], [], none)
  | report :: rest =>
    let step := reportEvents cfg env report
    match step.2.2 with
    | some o => (step.1, step.2.1, some o)
    | none =>
      let tail := runLoop cfg env rest
      (step.1 ++ tail.1, step.2.1 ++ tail.2.1, tail.2.2)

/-- `discovery_run`: logs the audit parameters — eagerly evaluating
`running_config.github_repository.split('/')[1]`, which raises
`AttributeError` on `None` and `IndexError` without a `'/'` — then runs the
audit command (non-zero exit is fatal), the conversion loop, and finally the
merge when `sarif_report` is configured (merge failure is fatal). -/
def discovery_run (cfg : RunningConfiguration) (env : DiscoveryEnv) :
    List Event × Outcome :=
  match cfg.github_repository with
  | none => ([], .uncaught .attributeError)
  | some repo =>
    if (splitChar '/' repo.data).length ≤ 1 then ([], .uncaught .indexError)
    else if env.auditOk then
      let loop := runLoop cfg env env.reports
      match loop.2.2 with
      | some o => (Event.execAudit :: loop.1, o)
      | none =>
        match cfg.sarif_report with
        | some _ =>
          (Event.execAudit :: (loop.1 ++ [Event.execMerge loop.2.1]),
           if env.mergeOk then .ok else .exit 1)
        | none => (Event.execAudit :: loop.1, .ok)
    else ([Event.execAudit], .exit 1)

/-- The reports whose conversion the driver attempted, read off the trace. -/
def convertAttempts (es : List Event) : List String :=
  es.filterMap fun e =>
    match e with
    | .convertAttempt r => some r
    | _ => none

/-- The merge invocations in the trace, with their file lists. -/
def mergeCalls (es : List Event) : List (List String) :=
  es.filterMap fun e =>
    match e with
    | .execMerge fs => some fs
    | _ => none

/-- The network uploads in the trace. -/
def networkUploads (es : List Event) : List String :=
  es.filterMap fun e =>
    match e with
    | .networkUpload s => some s
    | _ => none

/-! Concrete scenarios used to instantiate the theorems below. -/

/-- A SARIF document whose first run has an empty results list. -/
def emptyResultsDoc : Json :=
  .obj [("runs", .arr [.obj [("results", .arr [])]])]

/-- A SARIF document whose first run has one result. -/
def oneIssueDoc : Json :=
  .obj [("runs", .arr [.obj [("results", .arr [.null])]])]

/-- A SARIF document whose first run has three results. -/
def threeIssuesDoc : Json :=
  .obj [("runs", .arr [.obj [("results", .arr [.null, .null, .null])]])]

/-- A configuration with merging configured and no upload/enforcement. -/
def cfgMerge : RunningConfiguration :=
  { github_repository := some "owner/repo", sarif_report := some "out.sarif" }

/-- An environment with three reports where conversion of the second fails. -/
def envMerge : DiscoveryEnv :=
  { auditOk := true
    reports := ["a.audit-report.json", "b.audit-report.json", "c.audit-report.json"]
    convertOk := fun r => r ≠ "b.audit-report.json"
    uploadFileReadable := fun _ => true
    uploadHttpOk := fun _ => true
    gateFile := fun _ => some (.ok emptyResultsDoc)
    mergeOk := true }

/-- A configuration with gate enforcement on and merging configured. -/
def cfgEnforce : RunningConfiguration :=
  { enforce := true
    github_repository := some "owner/repo"
    sarif_report := some "out.sarif" }

/-- An environment with three convertible reports where only the second one's
SARIF file contains findings. -/
def envEnforce : DiscoveryEnv :=
  { auditOk := true
    reports := ["a.audit-report.json", "b.audit-report.json", "c.audit-report.json"]
    convertOk := fun _ => true
    uploadFileReadable := fun _ => true
    uploadHttpOk := fun _ => true
    gateFile := fun s =>
      if s = "b.audit-report.sarif" then some (.ok oneIssueDoc)
      else some (.ok emptyResultsDoc)
    mergeOk := true }

/-- An environment whose `INPUT_TOKEN` is the empty string and every other
variable is unset. -/
def envEmptyToken : Environ :=
  fun n => if n = "INPUT_TOKEN" then some "" else none

/-- An environment with a whitespace-only `INPUT_SARIF-REPORT` and an empty
`INPUT_TOKEN`. -/
def envBlankStrings : Environ :=
  fun n =>
    if n = "INPUT_SARIF-REPORT" then some "   "
    else if n = "INPUT_TOKEN" then some "" else none

/-- A subprocess oracle whose every invocation exits with code 2 and stderr
`"boom"`. -/
def procBoom : List String → ProcResult :=
  fun _ => { returncode := 2, stdout := "", stderr := "boom" }

/-! Helper lemmas. -/

/-- If a list does not contain the separator, `splitChar` returns it whole. -/
theorem splitChar_of_not_contains {c : Char} {l : List Char}
    (h : l.contains c = false) : splitChar c l = [l] := by
  induction l with
  | nil => rfl
  | cons x xs ih =>
    simp only [List.contains_cons, Bool.or_eq_false_iff, beq_eq_false_iff_ne] at h
    simp only [splitChar, ih h.2]
    rw [if_neg (fun hxc => h.1 hxc.symm)]

/-! Claim theorems. -/

/-- C1: For every parsed diagnostics document, the gate evaluator returns
"issues found" together with the length of `runs[0].results` when that list
is non-empty, and "no issues" with sentinel count `-1` when that list is
empty, when the document is missing the `runs` key, and when the `runs` list
is empty; a missing-key document is not an error. -/
theorem C1_gate_evaluator (fields : List (String × Json)) :
    (∀ (r0fields : List (String × Json)) (rest results : List Json),
        fields.lookup "runs" = some (.arr (Json.obj r0fields :: rest)) →
        r0fields.lookup "results" = some (.arr results) →
        is_security_issues_found (some (.ok (.obj fields))) =
          (if 0 < results.length then .ok (true, (results.length : Int))
           else .ok (false, -1)))
    ∧ (fields.lookup "runs" = none →
        is_security_issues_found (some (.ok (.obj fields))) = .ok (false, -1))
    ∧ (fields.lookup "runs" = some (.arr []) →
        is_security_issues_found (some (.ok (.obj fields))) = .ok (false, -1)) := by
  refine ⟨?_, ?_, ?_⟩
  · intro r0fields rest results h1 h2
    simp only [is_security_issues_found, getKey, getIdx, pyLen, h1, h2,
      List.get?_cons_zero]
    by_cases hr : 0 < results.length
    · have : (0 : Int) < results.length := by exact_mod_cast hr
      simp [this, hr]
    · have h0 : results.length = 0 := by omega
      simp [h0]
  · intro h1
    simp only [is_security_issues_found, getKey, h1]
  · intro h1
    simp only [is_security_issues_found, getKey, getIdx, h1, List.get?_nil]

/-- Witness for C1: a document with three results yields `(true, 3)`, and a
document without the `runs` key yields `(false, -1)`. -/
theorem C1_gate_evaluator_witness :
    is_security_issues_found (some (.ok threeIssuesDoc)) = .ok (true, 3)
    ∧ is_security_issues_found (some (.ok (.obj [("version", .str "2.1.0")]))) =
        .ok (false, -1) := by
  constructor
  · have h := (C1_gate_evaluator [("runs",
      .arr [.obj [("results", .arr [.null, .null, .null])]])]).1
      [("results", .arr [.null, .null, .null])] [] [.null, .null, .null] rfl rfl
    simpa [threeIssuesDoc] using h
  · exact (C1_gate_evaluator [("version", .str "2.1.0")]).2.1 rfl

/-- C10: The gate evaluator is only total on existing, JSON-parseable
diagnostics files: a missing file propagates `FileNotFoundError` and an
unparseable file propagates the JSON decode error, instead of the "no
issues" result. -/
theorem C10_gate_requires_parseable_file :
    is_security_issues_found none = .error .fileNotFoundError
    ∧ is_security_issues_found (some (.error ())) = .error .jsonDecodeError
    ∧ (Except.error PyErr.fileNotFoundError : Except PyErr (Bool × Int)) ≠
        .ok (false, -1)
    ∧ (Except.error PyErr.jsonDecodeError : Except PyErr (Bool × Int)) ≠
        .ok (false, -1) := by
  refine ⟨rfl, rfl, by simp, by simp⟩

/-- C8: For every boolean environment input, only the exact case-insensitive
string `"true"` resolves to `true`; every other value, including absence of
the variable, resolves to `false`. -/
theorem C8_boolean_inputs (env : Environ) :
    ((get_running_configuration env).enforce = true ↔
      ∃ s, env "INPUT_ENFORCE-SQG" = some s ∧ pyLower s = "true")
    ∧ ((get_running_configuration env).data_enrich = true ↔
      ∃ s, env "INPUT_DATA-ENRICH" = some s ∧ pyLower s = "true")
    ∧ ((get_running_configuration env).upload_to_code_scanning = true ↔
      ∃ s, env "INPUT_UPLOAD-TO-CODE-SCANNING" = some s ∧ pyLower s = "true") := by
  refine ⟨?_, ?_, ?_⟩
  · cases h : env "INPUT_ENFORCE-SQG" <;>
      simp [get_running_configuration, getenv, _to_bool, h] <;> decide
  · cases h : env "INPUT_DATA-ENRICH" <;>
      simp [get_running_configuration, getenv, _to_bool, h] <;> decide
  · cases h : env "INPUT_UPLOAD-TO-CODE-SCANNING" <;>
      simp [get_running_configuration, getenv, _to_bool, h] <;> decide

/-- C4: For every upload invocation, an absent access token is fatal with
exit code 1, and a repository identifier not containing a `'/'` separator is
fatal, in both cases without the network request being attempted (the first
component of the result is `false`). -/
theorem C4_upload_preconditions (github_token github_repository github_sha
    ref : Option String) (sarif_file_path : String)
    (fileReadable httpOk : String → Bool) :
    (github_token = none →
      upload_sarif github_token github_repository github_sha ref
        sarif_file_path fileReadable httpOk = (false, .exit 1))
    ∧ (∀ repo, github_repository = some repo → repo.data.contains '/' = false →
      upload_sarif github_token github_repository github_sha ref
        sarif_file_path fileReadable httpOk = (false, .exit 1)) := by
  constructor
  · intro h
    subst h
    simp [upload_sarif, pyFalsy]
  · intro repo hrepo hslash
    subst hrepo
    by_cases ht : pyFalsy github_token
    · simp [upload_sarif, ht]
    · by_cases hf : fileReadable sarif_file_path
      · have hmem : ¬ ('/' ∈ repo.data) := by simpa using hslash
        simp [upload_sarif, ht, hf, hmem]
      · simp [upload_sarif, ht, hf]

/-- Witness for C4: a missing token, and the separator-free repository
`"myrepo"`, each terminate with exit code 1 and no network attempt. -/
theorem C4_upload_preconditions_witness :
    upload_sarif none (some "owner/repo") (some "sha") (some "ref")
      "f.sarif" (fun _ => true) (fun _ => true) = (false, .exit 1)
    ∧ upload_sarif (some "tok") (some "myrepo") (some "sha") (some "ref")
      "f.sarif" (fun _ => true) (fun _ => true) = (false, .exit 1) := by
  constructor
  · exact (C4_upload_preconditions none (some "owner/repo") (some "sha")
      (some "ref") "f.sarif" (fun _ => true) (fun _ => true)).1 rfl
  · exact (C4_upload_preconditions (some "tok") (some "myrepo") (some "sha")
      (some "ref") "f.sarif" (fun _ => true) (fun _ => true)).2
      "myrepo" rfl (by decide)

/-- C9 (counterexample to the fatal-banner reading, as the claim states): a
configuration whose repository is absent raises `AttributeError`, and one
whose repository lacks `'/'` raises `IndexError`, both from the eagerly
evaluated debug-log expression, before the audit binary is invoked (the
event trace is empty). -/
theorem C9_eager_repository_split (cfg : RunningConfiguration)
    (env : DiscoveryEnv) :
    (cfg.github_repository = none →
      discovery_run cfg env = ([], .uncaught .attributeError))
    ∧ (∀ repo, cfg.github_repository = some repo →
      repo.data.contains '/' = false →
      discovery_run cfg env = ([], .uncaught .indexError)) := by
  constructor
  · intro h
    simp [discovery_run, h]
  · intro repo hrepo hslash
    have hsplit := splitChar_of_not_contains (c := '/') (l := repo.data) hslash
    simp [discovery_run, hrepo, hsplit]

/-- Witness for C9: the two failure modes at concrete configurations. -/
theorem C9_eager_repository_split_witness :
    discovery_run { github_repository := none } envMerge =
      ([], .uncaught .attributeError)
    ∧ discovery_run { github_repository := some "myrepo" } envMerge =
      ([], .uncaught .indexError) := by
  constructor
  · exact (C9_eager_repository_split { github_repository := none } envMerge).1 rfl
  · exact (C9_eager_repository_split { github_repository := some "myrepo" }
      envMerge).2 "myrepo" rfl (by decide)

/-- C5 counterexample: with `INPUT_TOKEN` set to the empty string (empty
after trimming), the resolved `github_token` is `some ""`, not absent — so
the empty-after-trim coercion does not hold universally over all
string-valued configuration fields. -/
theorem C5_counterexample_token_not_coerced :
    (get_running_configuration envEmptyToken).github_token = some ""
    ∧ pyStrip "" = ""
    ∧ (some "" : Option String) ≠ none := by
  refine ⟨rfl, rfl, by simp⟩

/-- C5 as amended: the empty-or-whitespace-after-trim coercion to absent
applies to the output report path and the export path only; the access
token, repository, organization, owner, ref and commit SHA resolve to the
raw environment value, so an empty string stays an empty string there. -/
theorem C5_amended_trim_coercion (env : Environ) :
    (∀ s, env "INPUT_SARIF-REPORT" = some s → pyStrip s = "" →
      (get_running_configuration env).sarif_report = none)
    ∧ (env "INPUT_SARIF-REPORT" = none →
      (get_running_configuration env).sarif_report = none)
    ∧ (∀ s, env "INPUT_EXPORT-AS-PDF" = some s → pyStrip s = "" →
      (get_running_configuration env).export_as_pdf = none)
    ∧ (env "INPUT_EXPORT-AS-PDF" = none →
      (get_running_configuration env).export_as_pdf = none)
    ∧ (get_running_configuration env).github_token = env "INPUT_TOKEN"
    ∧ (get_running_configuration env).github_repository = env "GITHUB_REPOSITORY"
    ∧ (get_running_configuration env).github_organization =
        env "GITHUB_REPOSITORY_OWNER"
    ∧ (get_running_configuration env).github_repository_owner =
        env "GITHUB_REPOSITORY_OWNER"
    ∧ (get_running_configuration env).github_ref = env "GITHUB_REF"
    ∧ (get_running_configuration env).github_sha = env "GITHUB_SHA" := by
  refine ⟨?_, ?_, ?_, ?_, rfl, rfl, rfl, rfl, rfl, rfl⟩
  · intro s hs ht
    simp [get_running_configuration, _none_or_empty, hs, ht]
  · intro hs
    simp [get_running_configuration, _none_or_empty, hs]
  · intro s hs ht
    simp [get_running_configuration, _none_or_empty, hs, ht]
  · intro hs
    simp [get_running_configuration, _none_or_empty, hs]

/-- Witness for the amended C5: a whitespace-only report path is coerced to
absent while an empty token survives as the empty string. -/
theorem C5_amended_trim_coercion_witness :
    (get_running_configuration envBlankStrings).sarif_report = none
    ∧ (get_running_configuration envBlankStrings).github_token = some "" := by
  constructor
  · exact (C5_amended_trim_coercion envBlankStrings).1 "   " rfl (by decide)
  · exact (C5_amended_trim_coercion envBlankStrings).2.2.2.2.1

/-- `replaceAllAux` leaves a list unchanged when the pattern occurs nowhere
in it. -/
theorem replaceAllAux_of_not_infix (pat repl : List Char) :
    ∀ (fuel : Nat) (l : List Char), ¬ pat <:+: l →
      replaceAllAux pat repl fuel l = l := by
  intro fuel
  induction fuel with
  | zero =>
    intro l _
    cases l <;> rfl
  | succ n ih =>
    intro l h
    cases l with
    | nil => rfl
    | cons c rest =>
      have hnp : ¬ (pat ≠ [] ∧ pat <+: (c :: rest)) := by
        rintro ⟨-, t, ht⟩
        exact h ⟨[], t, by simpa using ht⟩
      have hrest : ¬ pat <:+: rest := by
        rintro ⟨s, t, hst⟩
        exact h ⟨c :: s, t, by simp [hst]⟩
      simp only [replaceAllAux, if_neg hnp, ih rest hrest]

/-- C6 counterexample: for `x.audit-report.json.txt` the `.audit-report.json`
suffix is not present, yet the derived specification name is `x.txt`, not the
unchanged report name — `replace` removes the substring anywhere, not only a
suffix. -/
theorem C6_counterexample_not_suffix_only :
    openapi_file_of "x.audit-report.json.txt" = "x.txt"
    ∧ ¬ (".audit-report.json".data <:+ "x.audit-report.json.txt".data)
    ∧ ("x.txt" : String) ≠ "x.audit-report.json.txt" := by
  refine ⟨rfl, by decide, by decide⟩

/-- C6 as amended: for `petstore.yaml.audit-report.json` the derived
specification name is `petstore.yaml` and the derived diagnostics name is
`petstore.yaml.audit-report.sarif`; and for every report name, every
occurrence of the substring `.audit-report.json` is removed — a no-op
exactly when that substring is absent. -/
theorem C6_derived_names :
    openapi_file_of "petstore.yaml.audit-report.json" = "petstore.yaml"
    ∧ sarif_file_of "petstore.yaml.audit-report.json" =
        "petstore.yaml.audit-report.sarif"
    ∧ (∀ report : String, ¬ (".audit-report.json".data <:+: report.data) →
        openapi_file_of report = report) := by
  refine ⟨rfl, rfl, ?_⟩
  intro report h
  simp only [openapi_file_of, pyReplace, replaceAll,
    replaceAllAux_of_not_infix _ _ _ _ h]

/-- Witness for the amended C6: a name without the substring is unchanged. -/
theorem C6_derived_names_witness :
    openapi_file_of "plain.yaml" = "plain.yaml" :=
  C6_derived_names.2.2 "plain.yaml" (by decide)

/-- A substring of `a` is a substring of `a ++ b`. -/
theorem substr_appendl {n : List Char} {a : String} (h : n <:+: a.data)
    (b : String) : n <:+: (a ++ b).data := by
  rcases h with ⟨s, t, e⟩
  exact ⟨s, t ++ b.data, by rw [String.data_append, ← e]; simp⟩

/-- A substring of `b` is a substring of `a ++ b`. -/
theorem substr_appendr {n : List Char} {b : String} (h : n <:+: b.data)
    (a : String) : n <:+: (a ++ b).data := by
  rcases h with ⟨s, t, e⟩
  exact ⟨a.data ++ s, t, by rw [String.data_append, ← e]; simp⟩

/-- The `ExecutionError` message contains the exit code, the captured stdout
when non-empty, and the captured stderr when non-empty. -/
theorem failureMessage_contains (rc : Int) (so se : String) :
    (toString rc).data <:+: (failureMessage rc so se).data
    ∧ (so ≠ "" → so.data <:+: (failureMessage rc so se).data)
    ∧ (se ≠ "" → se.data <:+: (failureMessage rc so se).data) := by
  have hrc : (toString rc).data <:+:
      ("Command failed with exit code " ++ toString rc).data :=
    ⟨"Command failed with exit code ".data, [], by simp [String.data_append]⟩
  have hso0 : so.data <:+: ("stdout: " ++ so).data :=
    ⟨"stdout: ".data, [], by simp [String.data_append]⟩
  have hse0 : se.data <:+: ("stderr: " ++ se).data :=
    ⟨"stderr: ".data, [], by simp [String.data_append]⟩
  by_cases hso : so = ""
  · by_cases hse : se = ""
    · have hm : failureMessage rc so se =
          "Command failed with exit code " ++ toString rc := by
        simp [failureMessage, hso, hse, strJoin]
      rw [hm]
      exact ⟨hrc, fun h => absurd hso h, fun h => absurd hse h⟩
    · have hm : failureMessage rc so se =
          ("Command failed with exit code " ++ toString rc) ++ "\n" ++
            ("stderr: " ++ se) := by
        simp [failureMessage, hso, hse, strJoin]
      rw [hm]
      exact ⟨substr_appendl (substr_appendl hrc _) _,
        fun h => absurd hso h,
        fun _ => substr_appendr hse0 _⟩
  · by_cases hse : se = ""
    · have hm : failureMessage rc so se =
          ("Command failed with exit code " ++ toString rc) ++ "\n" ++
            ("stdout: " ++ so) := by
        simp [failureMessage, hso, hse, strJoin]
      rw [hm]
      exact ⟨substr_appendl (substr_appendl hrc _) _,
        fun _ => substr_appendr hso0 _,
        fun h => absurd hse h⟩
    · have hm : failureMessage rc so se =
          ("Command failed with exit code " ++ toString rc) ++ "\n" ++
            (("stdout: " ++ so) ++ "\n" ++ ("stderr: " ++ se)) := by
        simp [failureMessage, hso, hse, strJoin]
      rw [hm]
      exact ⟨substr_appendl (substr_appendl hrc _) _,
        fun _ => substr_appendr (substr_appendl (substr_appendl hso0 _) _) _,
        fun _ => substr_appendr (substr_appendr hse0 _) _⟩

/-- C7: Every subprocess invocation exiting with a non-zero code raises a
structured execution failure whose message contains the exit code, the
captured stdout when non-empty, and the captured stderr when non-empty; on
zero exit no failure is raised. -/
theorem C7_execute_failure (run : List String → ProcResult) (command : Command)
    (capture_output : Bool) (res : ProcResult)
    (hres : run (cmdArgs command) = res) :
    (res.returncode ≠ 0 →
      execute run command capture_output =
        .error (failureMessage res.returncode res.stdout res.stderr)
      ∧ (toString res.returncode).data <:+:
          (failureMessage res.returncode res.stdout res.stderr).data
      ∧ (res.stdout ≠ "" → res.stdout.data <:+:
          (failureMessage res.returncode res.stdout res.stderr).data)
      ∧ (res.stderr ≠ "" → res.stderr.data <:+:
          (failureMessage res.returncode res.stdout res.stderr).data))
    ∧ (res.returncode = 0 →
      execute run command capture_output =
        .ok (if capture_output then some (res.stdout, res.stderr) else none)) := by
  constructor
  · intro h0
    have hc := failureMessage_contains res.returncode res.stdout res.stderr
    exact ⟨by simp [execute, hres, h0], hc.1, hc.2.1, hc.2.2⟩
  · intro h0
    by_cases hcap : capture_output <;> simp [execute, hres, h0, hcap]

/-- Witness for C7: exit code 2 with stderr `"boom"` produces a failure
whose message contains both `"2"` and `"boom"`. -/
theorem C7_execute_failure_witness :
    execute procBoom (Command.args ["42ctl"]) true =
      .error (failureMessage 2 "" "boom")
    ∧ "2".data <:+: (failureMessage 2 "" "boom").data
    ∧ "boom".data <:+: (failureMessage 2 "" "boom").data := by
  have h := (C7_execute_failure procBoom (Command.args ["42ctl"]) true
    { returncode := 2, stdout := "", stderr := "boom" } rfl).1 (by decide)
  have h2 : toString (2 : Int) = "2" := rfl
  exact ⟨h.1, by simpa [h2] using h.2.1, h.2.2.2 (by decide)⟩

/-! Trace bookkeeping lemmas. -/

@[simp] theorem convertAttempts_nil : convertAttempts [] = [] := rfl

@[simp] theorem convertAttempts_cons_audit (es : List Event) :
    convertAttempts (Event.execAudit :: es) = convertAttempts es := rfl

@[simp] theorem convertAttempts_cons_convert (r : String) (es : List Event) :
    convertAttempts (Event.convertAttempt r :: es) = r :: convertAttempts es := rfl

@[simp] theorem convertAttempts_cons_upload (s : String) (es : List Event) :
    convertAttempts (Event.networkUpload s :: es) = convertAttempts es := rfl

@[simp] theorem convertAttempts_cons_gate (s : String) (es : List Event) :
    convertAttempts (Event.gateCheck s :: es) = convertAttempts es := rfl

@[simp] theorem convertAttempts_cons_merge (fs : List String) (es : List Event) :
    convertAttempts (Event.execMerge fs :: es) = convertAttempts es := rfl

@[simp] theorem convertAttempts_append (a b : List Event) :
    convertAttempts (a ++ b) = convertAttempts a ++ convertAttempts b := by
  simp [convertAttempts, List.filterMap_append]

@[simp] theorem mergeCalls_nil : mergeCalls [] = [] := rfl

@[simp] theorem mergeCalls_cons_audit (es : List Event) :
    mergeCalls (Event.execAudit :: es) = mergeCalls es := rfl

@[simp] theorem mergeCalls_cons_convert (r : String) (es : List Event) :
    mergeCalls (Event.convertAttempt r :: es) = mergeCalls es := rfl

@[simp] theorem mergeCalls_cons_upload (s : String) (es : List Event) :
    mergeCalls (Event.networkUpload s :: es) = mergeCalls es := rfl

@[simp] theorem mergeCalls_cons_gate (s : String) (es : List Event) :
    mergeCalls (Event.gateCheck s :: es) = mergeCalls es := rfl

@[simp] theorem mergeCalls_cons_merge (fs : List String) (es : List Event) :
    mergeCalls (Event.execMerge fs :: es) = fs :: mergeCalls es := rfl

@[simp] theorem mergeCalls_append (a b : List Event) :
    mergeCalls (a ++ b) = mergeCalls a ++ mergeCalls b := by
  simp [mergeCalls, List.filterMap_append]

@[simp] theorem convertAttempts_uploadStep (cfg : RunningConfiguration)
    (env : DiscoveryEnv) (s : String) :
    convertAttempts (uploadStep cfg env s).1 = [] := by
  by_cases h : cfg.upload_to_code_scanning <;> simp only [uploadStep, h] <;>
    first
      | rfl
      | (simp only [if_true]; split <;> rfl)

@[simp] theorem mergeCalls_uploadStep (cfg : RunningConfiguration)
    (env : DiscoveryEnv) (s : String) :
    mergeCalls (uploadStep cfg env s).1 = [] := by
  by_cases h : cfg.upload_to_code_scanning <;> simp only [uploadStep, h] <;>
    first
      | rfl
      | (simp only [if_true]; split <;> rfl)

@[simp] theorem convertAttempts_gateStep (cfg : RunningConfiguration)
    (env : DiscoveryEnv) (s : String) :
    convertAttempts (gateStep cfg env s).1 = [] := by
  by_cases h : cfg.enforce <;> simp [gateStep, h]

@[simp] theorem mergeCalls_gateStep (cfg : RunningConfiguration)
    (env : DiscoveryEnv) (s : String) :
    mergeCalls (gateStep cfg env s).1 = [] := by
  by_cases h : cfg.enforce <;> simp [gateStep, h]

/-- The trace fingerprint of one loop iteration: which conversion it
attempts, that it never merges, and which SARIF file it records. -/
theorem reportEvents_spec (cfg : RunningConfiguration) (env : DiscoveryEnv)
    (report : String) :
    convertAttempts (reportEvents cfg env report).1 =
      (if hasMarker report then [report] else [])
    ∧ mergeCalls (reportEvents cfg env report).1 = []
    ∧ (reportEvents cfg env report).2.1 =
      (if hasMarker report && env.convertOk report then [sarif_file_of report]
       else []) := by
  by_cases hm : hasMarker report
  · by_cases hc : env.convertOk report
    · cases huu : (uploadStep cfg env (sarif_file_of report)).2 with
      | some o => simp [reportEvents, hm, hc, huu]
      | none => simp [reportEvents, hm, hc, huu]
    · simp [reportEvents, hm, hc]
  · simp [reportEvents, hm]

/-- When no iteration terminates the process, the loop attempts the
conversion of every marked report, records exactly the successfully
converted SARIF files, and never merges. -/
theorem runLoop_no_abort (cfg : RunningConfiguration) (env : DiscoveryEnv) :
    ∀ rs : List String, (∀ r ∈ rs, (reportEvents cfg env r).2.2 = none) →
      (runLoop cfg env rs).2.2 = none
      ∧ convertAttempts (runLoop cfg env rs).1 = rs.filter (fun r => hasMarker r)
      ∧ (runLoop cfg env rs).2.1 =
          (rs.filter fun r => hasMarker r && env.convertOk r).map sarif_file_of
      ∧ mergeCalls (runLoop cfg env rs).1 = [] := by
  intro rs
  induction rs with
  | nil => exact fun _ => ⟨rfl, rfl, rfl, rfl⟩
  | cons r rest ih =>
    intro h
    have hr := h r (List.mem_cons_self r rest)
    have hrest := ih fun x hx => h x (List.mem_cons_of_mem r hx)
    have hspec := reportEvents_spec cfg env r
    refine ⟨?_, ?_, ?_, ?_⟩
    · simp only [runLoop, hr]
      exact hrest.1
    · simp only [runLoop, hr, convertAttempts_append, hspec.1, hrest.2.1,
        List.filter_cons]
      by_cases hm : hasMarker r <;> simp [hm]
    · simp only [runLoop, hr, hspec.2.2, hrest.2.2.1, List.filter_cons]
      by_cases hmc : hasMarker r && env.convertOk r <;> simp [hmc]
    · simp only [runLoop, hr, mergeCalls_append, hspec.2.1, hrest.2.2.2]
      simp

/-- The loop stops at the first iteration that terminates the process: the
trace is that of the earlier iterations followed by the aborting one, and
nothing after `bad` is processed. -/
theorem runLoop_abort (cfg : RunningConfiguration) (env : DiscoveryEnv) :
    ∀ (pre : List String) (bad : String) (post : List String) (o : Outcome),
      (∀ r ∈ pre, (reportEvents cfg env r).2.2 = none) →
      (reportEvents cfg env bad).2.2 = some o →
      runLoop cfg env (pre ++ bad :: post) =
        ((runLoop cfg env pre).1 ++ (reportEvents cfg env bad).1,
         (runLoop cfg env pre).2.1 ++ (reportEvents cfg env bad).2.1,
         some o) := by
  intro pre
  induction pre with
  | nil =>
    intro bad post o _ hbad
    simp [runLoop, hbad]
  | cons r rest ih =>
    intro bad post o hpre hbad
    have hr := hpre r (List.mem_cons_self r rest)
    have htail := ih bad post o (fun x hx => hpre x (List.mem_cons_of_mem r hx))
      hbad
    simp only [List.cons_append, runLoop, hr, List.append_eq, htail,
      List.append_assoc]

/-- C2: A conversion failure of one report is non-fatal: provided no
report's upload or gate step terminates the process, the driver attempts
the conversion of every marked report in the listing, and the final merge
(when a merge output path is configured) is invoked with exactly the
diagnostics files of the reports whose conversion succeeded; with no merge
path configured no merge happens. -/
theorem C2_conversion_failure_nonfatal (cfg : RunningConfiguration)
    (env : DiscoveryEnv) (repo : String)
    (hrepo : cfg.github_repository = some repo)
    (hslash : 2 ≤ (splitChar '/' repo.data).length)
    (haudit : env.auditOk = true)
    (hnoabort : ∀ r ∈ env.reports, (reportEvents cfg env r).2.2 = none) :
    convertAttempts (discovery_run cfg env).1 =
      env.reports.filter (fun r => hasMarker r)
    ∧ (∀ p, cfg.sarif_report = some p →
        mergeCalls (discovery_run cfg env).1 =
          [(env.reports.filter fun r => hasMarker r && env.convertOk r).map
            sarif_file_of])
    ∧ (cfg.sarif_report = none → mergeCalls (discovery_run cfg env).1 = []) := by
  have hloop := runLoop_no_abort cfg env env.reports hnoabort
  have hnle : ¬ ((splitChar '/' repo.data).length ≤ 1) := by omega
  refine ⟨?_, ?_, ?_⟩
  · cases hsar : cfg.sarif_report with
    | none =>
      simp only [discovery_run, hrepo, if_neg hnle, haudit, if_true,
        hloop.1, hsar]
      simpa using hloop.2.1
    | some p =>
      simp only [discovery_run, hrepo, if_neg hnle, haudit, if_true,
        hloop.1, hsar]
      simpa using hloop.2.1
  · intro p hsar
    simp only [discovery_run, hrepo, if_neg hnle, haudit, if_true,
      hloop.1, hsar]
    simp [hloop.2.2.2, hloop.2.2.1]
  · intro hsar
    simp only [discovery_run, hrepo, if_neg hnle, haudit, if_true,
      hloop.1, hsar]
    simpa using hloop.2.2.2

/-- Witness for C2: three reports, the second failing to convert — every
conversion is attempted and the merge receives only the first and third
diagnostics files. -/
theorem C2_conversion_failure_nonfatal_witness :
    convertAttempts (discovery_run cfgMerge envMerge).1 =
      ["a.audit-report.json", "b.audit-report.json", "c.audit-report.json"]
    ∧ mergeCalls (discovery_run cfgMerge envMerge).1 =
      [["a.audit-report.sarif", "c.audit-report.sarif"]] := by
  have h := C2_conversion_failure_nonfatal cfgMerge envMerge "owner/repo" rfl
    (by decide) rfl (by decide)
  constructor
  · rw [h.1]
    decide
  · rw [h.2.1 "out.sarif" rfl]
    decide

/-- C3: With gate enforcement enabled, the driver exits with code 1 at the
first report whose diagnostics file contains findings: the whole trace is
the audit run, the earlier iterations, and the offending report's
conversion, upload and gate check — nothing afterwards is converted,
uploaded or merged. -/
theorem C3_enforcement_short_circuits (cfg : RunningConfiguration)
    (env : DiscoveryEnv) (repo bad : String) (pre post : List String) (n : Int)
    (hrepo : cfg.github_repository = some repo)
    (hslash : 2 ≤ (splitChar '/' repo.data).length)
    (haudit : env.auditOk = true)
    (henforce : cfg.enforce = true)
    (hreports : env.reports = pre ++ bad :: post)
    (hpre : ∀ r ∈ pre, (reportEvents cfg env r).2.2 = none)
    (hbadmark : hasMarker bad = true)
    (hbadconv : env.convertOk bad = true)
    (hbadupload : (uploadStep cfg env (sarif_file_of bad)).2 = none)
    (hbadgate : is_security_issues_found (env.gateFile (sarif_file_of bad)) =
      .ok (true, n)) :
    discovery_run cfg env =
      (Event.execAudit :: ((runLoop cfg env pre).1 ++
        (Event.convertAttempt bad :: ((uploadStep cfg env (sarif_file_of bad)).1
          ++ [Event.gateCheck (sarif_file_of bad)]))), .exit 1)
    ∧ mergeCalls (discovery_run cfg env).1 = []
    ∧ convertAttempts (discovery_run cfg env).1 =
        pre.filter (fun r => hasMarker r) ++ [bad] := by
  have hnle : ¬ ((splitChar '/' repo.data).length ≤ 1) := by omega
  have hgate : gateStep cfg env (sarif_file_of bad) =
      ([Event.gateCheck (sarif_file_of bad)], some (.exit 1)) := by
    simp [gateStep, henforce, hbadgate]
  have hbad : reportEvents cfg env bad =
      (Event.convertAttempt bad :: ((uploadStep cfg env (sarif_file_of bad)).1
        ++ [Event.gateCheck (sarif_file_of bad)]), [sarif_file_of bad],
       some (.exit 1)) := by
    simp [reportEvents, hbadmark, hbadconv, hbadupload, hgate]
  have hloop := runLoop_abort cfg env pre bad post (.exit 1) hpre
    (by rw [hbad])
  have hpreloop := runLoop_no_abort cfg env pre hpre
  have hmain : discovery_run cfg env =
      (Event.execAudit :: ((runLoop cfg env pre).1 ++
        (Event.convertAttempt bad :: ((uploadStep cfg env (sarif_file_of bad)).1
          ++ [Event.gateCheck (sarif_file_of bad)]))), .exit 1) := by
    simp only [discovery_run, hrepo, if_neg hnle, haudit, if_true, hreports,
      hloop, hbad]
  refine ⟨hmain, ?_, ?_⟩
  · rw [hmain]
    simp [hpreloop.2.2.2]
  · rw [hmain]
    simp [hpreloop.2.1]

/-- Witness for C3: three convertible reports with findings only in the
second one's diagnostics — the run exits 1 right after the second gate
check, with the third report untouched and no merge despite the configured
merge path. -/
theorem C3_enforcement_short_circuits_witness :
    discovery_run cfgEnforce envEnforce =
      ([Event.execAudit, Event.convertAttempt "a.audit-report.json",
        Event.gateCheck "a.audit-report.sarif",
        Event.convertAttempt "b.audit-report.json",
        Event.gateCheck "b.audit-report.sarif"], .exit 1)
    ∧ mergeCalls (discovery_run cfgEnforce envEnforce).1 = [] := by
  have h := C3_enforcement_short_circuits cfgEnforce envEnforce "owner/repo"
    "b.audit-report.json" ["a.audit-report.json"] ["c.audit-report.json"] 1
    rfl (by decide) rfl rfl rfl (by decide) (by decide) (by decide) rfl rfl
  refine ⟨?_, h.2.1⟩
  rw [h.1]
  decide

end Entrypoint
